import Mathlib

/-!
Verification of the kafka-health replication probe (src/main.go) against its
natural-language specification.

The program is a single run-to-completion check: it resolves the working set
of topics (src/main.go:57-64), then for each topic lists its partitions and,
for each partition, its replica set, and terminates through `log.Fatal*`
(which calls `os.Exit(1)` and therefore skips deferred calls) on the first
metadata failure or under- or over-replicated partition (src/main.go:73-101).
The shallow embedding below models the broker metadata client as a record of
query results, the evaluation loop as recursive functions that also record
the sequence of metadata queries issued, and the process boundary (emitted
terminal log line, exit code, number of times the deferred `client.Close()`
from src/main.go:53 actually ran) as a `RunResult`.
-/

namespace KafkaHealth

/-- A metadata query issued to the sarama client: `client.Topics()`,
`client.Partitions(topic)` or `client.Replicas(topic, partition)`. -/
inductive Query where
  | topicsQ : Query
  | partitionsQ (topic : String) : Query
  | replicasQ (topic : String) (partition : Int) : Query
deriving DecidableEq, Repr

/-- The broker metadata source (sarama `Client`) as seen by main: each query
either fails with an error (modelled by its message string) or returns its
result. Partition ids are int32 in sarama, replica entries are broker ids
(int32); both are modelled as `Int` (no overflow is at stake). -/
structure BrokerClient where
  topics : Except String (List String)
  partitions : String → Except String (List Int)
  replicas : String → Int → Except String (List Int)

/-- The condition of src/main.go:94 deciding that a partition fails the
replication policy: `*replicaLevel > 0 && len(replicas) != *replicaLevel`. -/
def partitionUnhealthy (replicaLevel : Int) (replicas : List Int) : Bool :=
  decide (replicaLevel > 0) && ((replicas.length : Int) != replicaLevel)

/-- The four `log.Fatal*` sites of src/main.go, each recorded with the data
in scope at the call. `replicasErr` keeps the `err` value that is in scope
at src/main.go:83 even though the log call at src/main.go:85-88 does not
include it; `unhealthy` keeps the level and the replica count in scope at
src/main.go:94 even though the log call at src/main.go:95-98 includes
neither. `reportOf` below renders exactly what the code logs. -/
inductive FatalEvent where
  | topicsErr (cause : String) : FatalEvent
  | partitionsErr (topic : String) (cause : String) : FatalEvent
  | replicasErr (topic : String) (partition : Int) (cause : String) : FatalEvent
  | unhealthy (topic : String) (partition : Int) (expected : Int) (actual : Nat) : FatalEvent
deriving DecidableEq, Repr

/-- A structured logrus line: the `WithFields` key/value pairs (values
rendered as strings) and the message. -/
structure Report where
  fields : List (String × String)
  msg : String
deriving DecidableEq, Repr

/-- What each fatal site actually logs (src/main.go:60-62, 76-79, 85-88,
95-98). The replica-error line carries only topic and partition (its `err`
is dropped and its message is the literal "Error listing partitions" of
src/main.go:88); the unhealthy line carries only topic and partition plus
the `Fatalf` message of src/main.go:98. -/
def reportOf : FatalEvent → Report
  | FatalEvent.topicsErr cause =>
      ⟨[("err", cause)], "Error Listing Topics"⟩
  | FatalEvent.partitionsErr topic cause =>
      ⟨[("err", cause), ("topic", topic)], "Error Listing Partitions"⟩
  | FatalEvent.replicasErr topic partition _cause =>
      ⟨[("topic", topic), ("partition", toString partition)], "Error listing partitions"⟩
  | FatalEvent.unhealthy topic partition _expected _actual =>
      ⟨[("topic", topic), ("partition", toString partition)],
        "topics " ++ topic ++ ":" ++ toString partition ++ " is not fully replicated"⟩

/-- Is the event the replication-policy failure of src/main.go:94 (as
opposed to one of the metadata-error sites)? -/
def isUnhealthyEvent : FatalEvent → Bool
  | FatalEvent.unhealthy _ _ _ _ => true
  | _ => false

/-- The inner loop of src/main.go:82-100: for each partition in order, query
its replicas; a failed query fatals at src/main.go:85-88, a replica set
failing the policy of src/main.go:94 fatals at src/main.go:95-98; otherwise
continue. Returns the queries issued and the fatal event, if any, that
stopped the loop. -/
def checkPartitions (client : BrokerClient) (replicaLevel : Int) (topic : String) :
    List Int → List Query × Option FatalEvent
  | [] => ([], none)
  | p :: rest =>
    match client.replicas topic p with
    | Except.error e =>
        ([Query.replicasQ topic p], some (FatalEvent.replicasErr topic p e))
    | Except.ok replicas =>
        if partitionUnhealthy replicaLevel replicas then
          ([Query.replicasQ topic p],
            some (FatalEvent.unhealthy topic p replicaLevel replicas.length))
        else
          let r := checkPartitions client replicaLevel topic rest
          (Query.replicasQ topic p :: r.1, r.2)

/-- The outer loop of src/main.go:73-101: for each topic in order, query its
partitions (a failed query fatals at src/main.go:76-79) and run the inner
loop; a fatal event stops everything. -/
def checkTopics (client : BrokerClient) (replicaLevel : Int) :
    List String → List Query × Option FatalEvent
  | [] => ([], none)
  | t :: rest =>
    match client.partitions t with
    | Except.error e =>
        ([Query.partitionsQ t], some (FatalEvent.partitionsErr t e))
    | Except.ok parts =>
        let r := checkPartitions client replicaLevel t parts
        match r.2 with
        | some ev => (Query.partitionsQ t :: r.1, some ev)
        | none =>
          let r2 := checkTopics client replicaLevel rest
          (Query.partitionsQ t :: r.1 ++ r2.1, r2.2)

/-- The topic resolution of src/main.go:57-64: if the (already split)
topics list is exactly one element and that element is the empty string,
query the client for the full topic list (fatal at src/main.go:60-62 on
failure); otherwise the list is used verbatim. -/
def resolveTopics (client : BrokerClient) (topicsList : List String) :
    List Query × Except FatalEvent (List String) :=
  match topicsList with
  | [t0] =>
    if t0 = "" then
      match client.topics with
      | Except.error e => ([Query.topicsQ], Except.error (FatalEvent.topicsErr e))
      | Except.ok ts => ([Query.topicsQ], Except.ok ts)
    else ([], Except.ok [t0])
  | _ => ([], Except.ok topicsList)

/-- The fatal event, if any, that terminates a run of main after the client
is established: topic resolution first (src/main.go:57-64), then the
evaluation loops (src/main.go:73-101). `none` means main returns normally. -/
def runEvent (client : BrokerClient) (topicsList : List String) (replicaLevel : Int) :
    Option FatalEvent :=
  match resolveTopics client topicsList with
  | (_, Except.error ev) => some ev
  | (_, Except.ok ts) => (checkTopics client replicaLevel ts).2

/-- The sequence of metadata queries a run issues, in order. -/
def runQueries (client : BrokerClient) (topicsList : List String) (replicaLevel : Int) :
    List Query :=
  match resolveTopics client topicsList with
  | (qs, Except.error _) => qs
  | (qs, Except.ok ts) => qs ++ (checkTopics client replicaLevel ts).1

/-- The observable outcome of a run: the metadata queries issued, the
terminal fatal log line if any, the process exit code, and how many times
the deferred `client.Close()` of src/main.go:53 ran. -/
structure RunResult where
  queries : List Query
  emitted : Option Report
  exitCode : Nat
  closeCount : Nat
deriving DecidableEq, Repr

/-- A whole run of main after the client is established (src/main.go:53-102).
On a fatal event the process terminates through `log.Fatal*`, which logs the
line and calls `os.Exit(1)`; `os.Exit` does not run deferred functions, so
the `defer client.Close()` of src/main.go:53 is skipped (`closeCount = 0`).
On normal return the exit code is 0 and the deferred close runs once. -/
def run (client : BrokerClient) (topicsList : List String) (replicaLevel : Int) :
    RunResult :=
  match runEvent client topicsList replicaLevel with
  | some ev => ⟨runQueries client topicsList replicaLevel, some (reportOf ev), 1, 0⟩
  | none => ⟨runQueries client topicsList replicaLevel, none, 0, 1⟩

/-- The spec's `EvaluationVerdict` (spec §3): `Healthy`,
`Unhealthy(topic, partition, expected, actual)` or `EvaluationError`,
read off a run's terminal event. -/
inductive Verdict where
  | healthy : Verdict
  | unhealthy (topic : String) (partition : Int) (expected : Int) (actual : Nat) : Verdict
  | evalError : Verdict
deriving DecidableEq, Repr

/-- The verdict of a run: `healthy` when main returns normally, `unhealthy`
when the replication policy of src/main.go:94 fired, `evalError` when a
metadata query failed. -/
def runVerdict (client : BrokerClient) (topicsList : List String) (replicaLevel : Int) :
    Verdict :=
  match runEvent client topicsList replicaLevel with
  | none => Verdict.healthy
  | some (FatalEvent.unhealthy t p e a) => Verdict.unhealthy t p e a
  | some _ => Verdict.evalError

/-- The logrus log levels referenced at src/main.go:13 and 26-29. The logrus
dependency is not vendored under src/, so its level type is modelled here
from the dependency's behaviour, corroborated in-repo by the README's
recorded usage output (`-logLevel="warning"`). -/
inductive Level where
  | PanicLevel : Level
  | FatalLevel : Level
  | ErrorLevel : Level
  | WarnLevel : Level
  | InfoLevel : Level
  | DebugLevel : Level
deriving DecidableEq, Repr

/-- Modelled from the logrus dependency (not under src/): `Level.String()`.
logrus renders `WarnLevel` as "warning" (not "warn"); the repository README
records the flag usage line `-logLevel="warning"`, which is this string
surfacing as the flag default printed by the flag package. -/
def levelString : Level → String
  | Level.PanicLevel => "panic"
  | Level.FatalLevel => "fatal"
  | Level.ErrorLevel => "error"
  | Level.WarnLevel => "warning"
  | Level.InfoLevel => "info"
  | Level.DebugLevel => "debug"

/-- The default of the `-logLevel` flag at src/main.go:13:
`logrus.WarnLevel.String()`. -/
def defaultLogLevel : String := levelString Level.WarnLevel

/-- Modelled from the logrus dependency (not under src/):
`logrus.ParseLevel`, which accepts the level names panic, fatal, error,
warn, warning, info and debug, failing on anything else. (Depending on the
logrus version the match is case-insensitive; only the lowercase names,
which every version accepts, matter here.) -/
def parseLevel (s : String) : Option Level :=
  match s with
  | "panic" => some Level.PanicLevel
  | "fatal" => some Level.FatalLevel
  | "error" => some Level.ErrorLevel
  | "warn" => some Level.WarnLevel
  | "warning" => some Level.WarnLevel
  | "info" => some Level.InfoLevel
  | "debug" => some Level.DebugLevel
  | _ => none

/-- The level selection of src/main.go:26-30: parse the flag value, and on
a parse failure fall back to `logrus.WarnLevel` instead of rejecting it. -/
def effectiveLogLevel (s : String) : Level :=
  match parseLevel s with
  | some lvl => lvl
  | none => Level.WarnLevel

/-- A client over topic "a" with one partition 0 whose replica set has two
brokers: healthy at replicaLevel 2. -/
def clientTwoReplicas : BrokerClient :=
  ⟨Except.ok ["a"], fun _ => Except.ok [0], fun _ _ => Except.ok [11, 12]⟩

/-- A client over topic "a" with one partition 0 whose replica set has one
broker: unhealthy at any replicaLevel other than 1 (and 0). -/
def clientOneReplica : BrokerClient :=
  ⟨Except.ok ["a"], fun _ => Except.ok [0], fun _ _ => Except.ok [11]⟩

/-- A client over topic "a" with one partition 0 whose replica set has five
brokers. -/
def clientFiveReplicas : BrokerClient :=
  ⟨Except.ok ["a"], fun _ => Except.ok [0], fun _ _ => Except.ok [11, 12, 13, 14, 15]⟩

/-- A client whose replica query always fails with cause "boom". -/
def clientBoom : BrokerClient :=
  ⟨Except.ok ["t"], fun _ => Except.ok [0], fun _ _ => Except.error "boom"⟩

/-- A client identical to `clientBoom` except the replica query fails with
cause "bang". -/
def clientBang : BrokerClient :=
  ⟨Except.ok ["t"], fun _ => Except.ok [0], fun _ _ => Except.error "bang"⟩

/-- A client for the short-circuit scenario: topic "a" has partitions 0 and
1, partition 0 has two replicas and partition 1 has one; topic "b" also
exists with its own partition. -/
def clientShortCircuit : BrokerClient :=
  ⟨Except.ok ["a", "b"],
    fun t => if t = "a" then Except.ok [0, 1] else Except.ok [0],
    fun t p => if t = "a" && p == 0 then Except.ok [11, 12] else Except.ok [11]⟩

/-- A replication level that is zero or negative disables the policy check:
the guard `*replicaLevel > 0` of src/main.go:94 is false. -/
theorem partitionUnhealthy_nonpos (lvl : Int) (h : lvl ≤ 0) (S : List Int) :
    partitionUnhealthy lvl S = false := by
  have hng : ¬ lvl > 0 := not_lt.mpr h
  simp [partitionUnhealthy, hng]

/-- If the policy check never fires, the partition loop can only stop on a
replica-query error, never with an unhealthy event. -/
theorem checkPartitions_no_unhealthy (client : BrokerClient) (lvl : Int) (t : String)
    (h0 : ∀ S, partitionUnhealthy lvl S = false) :
    ∀ ps ev, (checkPartitions client lvl t ps).2 = some ev → isUnhealthyEvent ev = false := by
  intro ps
  induction ps with
  | nil => intro ev h; simp [checkPartitions] at h
  | cons q qs ih =>
    intro ev h
    cases hq : client.replicas t q with
    | error e =>
      simp [checkPartitions, hq] at h
      rw [← h]
      rfl
    | ok S =>
      simp [checkPartitions, hq, h0] at h
      exact ih ev h

/-- If the policy check never fires, the topic loop can only stop on a
metadata error, never with an unhealthy event. -/
theorem checkTopics_no_unhealthy (client : BrokerClient) (lvl : Int)
    (h0 : ∀ S, partitionUnhealthy lvl S = false) :
    ∀ ts ev, (checkTopics client lvl ts).2 = some ev → isUnhealthyEvent ev = false := by
  intro ts
  induction ts with
  | nil => intro ev h; simp [checkTopics] at h
  | cons t rest ih =>
    intro ev h
    cases ht : client.partitions t with
    | error e =>
      simp [checkTopics, ht] at h
      rw [← h]
      rfl
    | ok parts =>
      cases hcp : (checkPartitions client lvl t parts).2 with
      | some ev' =>
        simp [checkTopics, ht, hcp] at h
        rw [← h]
        exact checkPartitions_no_unhealthy client lvl t h0 parts ev' hcp
      | none =>
        simp [checkTopics, ht, hcp] at h
        exact ih ev h

/-- The topic-resolution step can only fail with the topic-list error of
src/main.go:60-62. -/
theorem resolveTopics_error_topicsErr (client : BrokerClient) (l : List String)
    (ev : FatalEvent) (h : (resolveTopics client l).2 = Except.error ev) :
    ∃ e, ev = FatalEvent.topicsErr e := by
  match l with
  | [] => simp [resolveTopics] at h
  | [t0] =>
    by_cases ht : t0 = ""
    · subst ht
      cases hc : client.topics with
      | error e =>
        simp [resolveTopics, hc] at h
        exact ⟨e, h.symm⟩
      | ok ts => simp [resolveTopics, hc] at h
    · simp [resolveTopics, ht] at h
  | t0 :: t1 :: rest => simp [resolveTopics] at h

/-- C1: for every replicaLevel > 0 and every partition whose replica query
succeeds with replica set R, the evaluator judges the partition healthy iff
`len(R) == replicaLevel` exactly (the guard of src/main.go:94); any other
size, under- or over-replicated alike, stops the loop with the unhealthy
event carrying `actual = len(R)`. -/
theorem strict_equality_replication (client : BrokerClient) (lvl : Int)
    (t : String) (p : Int) (R : List Int)
    (hlvl : 0 < lvl) (hR : client.replicas t p = Except.ok R) :
    (partitionUnhealthy lvl R = false ↔ (R.length : Int) = lvl) ∧
    ((R.length : Int) = lvl → (checkPartitions client lvl t [p]).2 = none) ∧
    ((R.length : Int) ≠ lvl →
      (checkPartitions client lvl t [p]).2 =
        some (FatalEvent.unhealthy t p lvl R.length)) := by
  refine ⟨?_, ?_, ?_⟩
  · constructor
    · intro h
      by_contra hne
      simp [partitionUnhealthy, hlvl, hne] at h
    · intro h
      simp [partitionUnhealthy, h]
  · intro h
    simp [checkPartitions, hR, partitionUnhealthy, h]
  · intro h
    simp [checkPartitions, hR, partitionUnhealthy, hlvl, h]

/-- Witness for C1 at replicaLevel 2 with a two-broker replica set. -/
theorem strict_equality_replication_witness :
    (partitionUnhealthy 2 [11, 12] = false ↔ (([11, 12] : List Int).length : Int) = 2) ∧
    ((([11, 12] : List Int).length : Int) = 2 →
      (checkPartitions clientTwoReplicas 2 "a" [0]).2 = none) ∧
    ((([11, 12] : List Int).length : Int) ≠ 2 →
      (checkPartitions clientTwoReplicas 2 "a" [0]).2 =
        some (FatalEvent.unhealthy "a" 0 2 ([11, 12] : List Int).length)) :=
  strict_equality_replication clientTwoReplicas 2 "a" 0 [11, 12] (by decide) rfl

/-- C3: when replicaLevel is 0, every partition whose replica query succeeds
is judged healthy whatever the size of its replica set — the guard of
src/main.go:94 is false, so the count is never compared — and the loop can
never stop with an unhealthy event. -/
theorem level_zero_existence_check (client : BrokerClient) (t : String) (p : Int)
    (R : List Int) (ps : List Int) (hR : client.replicas t p = Except.ok R) :
    partitionUnhealthy 0 R = false ∧
    (checkPartitions client 0 t [p]).2 = none ∧
    (∀ ev, (checkPartitions client 0 t ps).2 = some ev → isUnhealthyEvent ev = false) := by
  have h0 : ∀ S : List Int, partitionUnhealthy 0 S = false :=
    partitionUnhealthy_nonpos 0 le_rfl
  exact ⟨h0 R, by simp [checkPartitions, hR, h0],
    checkPartitions_no_unhealthy client 0 t h0 ps⟩

/-- Witness for C3 with a five-broker replica set at replicaLevel 0. -/
theorem level_zero_existence_check_witness :
    partitionUnhealthy 0 [11, 12, 13, 14, 15] = false ∧
    (checkPartitions clientFiveReplicas 0 "a" [0]).2 = none ∧
    (∀ ev, (checkPartitions clientFiveReplicas 0 "a" [0]).2 = some ev →
      isUnhealthyEvent ev = false) :=
  level_zero_existence_check clientFiveReplicas "a" 0 [11, 12, 13, 14, 15] [0] rfl

/-- C4: the topic resolution of src/main.go:57-64 returns the requested
list verbatim for every input other than the singleton empty string; for
exactly `[""]` it returns the broker's full topic list, failing with the
topic-list metadata error when that query fails. -/
theorem resolver_verbatim_or_full_list (client : BrokerClient) (l ts : List String)
    (e : String) :
    (l ≠ [""] → resolveTopics client l = ([], Except.ok l)) ∧
    (client.topics = Except.ok ts →
      resolveTopics client [""] = ([Query.topicsQ], Except.ok ts)) ∧
    (client.topics = Except.error e →
      resolveTopics client [""] =
        ([Query.topicsQ], Except.error (FatalEvent.topicsErr e))) := by
  refine ⟨?_, ?_, ?_⟩
  · intro hl
    match l with
    | [] => rfl
    | [t0] =>
      have ht : ¬ t0 = "" := fun h => hl (by rw [h])
      simp [resolveTopics, ht]
    | t0 :: t1 :: rest => rfl
  · intro h
    simp [resolveTopics, h]
  · intro h
    simp [resolveTopics, h]

/-- Witness for C4 on the list ["x", "y"] and on [""] against
`clientTwoReplicas` (whose topic list is ["a"]). -/
theorem resolver_verbatim_or_full_list_witness :
    (["x", "y"] ≠ [""] → resolveTopics clientTwoReplicas ["x", "y"] =
      ([], Except.ok ["x", "y"])) ∧
    (clientTwoReplicas.topics = Except.ok ["a"] →
      resolveTopics clientTwoReplicas [""] = ([Query.topicsQ], Except.ok ["a"])) ∧
    (clientTwoReplicas.topics = Except.error "e" →
      resolveTopics clientTwoReplicas [""] =
        ([Query.topicsQ], Except.error (FatalEvent.topicsErr "e"))) :=
  resolver_verbatim_or_full_list clientTwoReplicas ["x", "y"] ["a"] "e"

/-- C7: the process exit status is 0 exactly when the run's verdict is
Healthy; any unhealthy or error verdict terminates through `log.Fatal*`
with exit status 1. -/
theorem exit_zero_iff_healthy (client : BrokerClient) (l : List String) (lvl : Int) :
    (run client l lvl).exitCode = 0 ↔ runVerdict client l lvl = Verdict.healthy := by
  unfold run runVerdict
  cases runEvent client l lvl with
  | none => simp
  | some ev => cases ev <;> simp

/-- Witness for C7 on a healthy and an unhealthy concrete run. -/
theorem exit_zero_iff_healthy_witness :
    ((run clientTwoReplicas ["a"] 2).exitCode = 0 ↔
      runVerdict clientTwoReplicas ["a"] 2 = Verdict.healthy) ∧
    ((run clientOneReplica ["a"] 2).exitCode = 0 ↔
      runVerdict clientOneReplica ["a"] 2 = Verdict.healthy) :=
  ⟨exit_zero_iff_healthy clientTwoReplicas ["a"] 2,
    exit_zero_iff_healthy clientOneReplica ["a"] 2⟩

/-- The partition loop run on a list whose first failing entry is `p`
(everything before it passes the policy) issues exactly the replica queries
for the healthy prefix and for `p`, and stops there with the unhealthy
event. -/
theorem checkPartitions_stops_at_first_bad (client : BrokerClient) (lvl : Int)
    (t : String) (ps₁ : List Int) (p : Int) (ps₂ : List Int) (R : List Int)
    (hok : ∀ q ∈ ps₁, ∃ S, client.replicas t q = Except.ok S ∧
      partitionUnhealthy lvl S = false)
    (hR : client.replicas t p = Except.ok R)
    (hbad : partitionUnhealthy lvl R = true) :
    checkPartitions client lvl t (ps₁ ++ p :: ps₂) =
      (ps₁.map (Query.replicasQ t) ++ [Query.replicasQ t p],
        some (FatalEvent.unhealthy t p lvl R.length)) := by
  induction ps₁ with
  | nil => simp [checkPartitions, hR, hbad]
  | cons q qs ih =>
    obtain ⟨S, hS, hSok⟩ := hok q (List.mem_cons_self q qs)
    have ih' := ih fun r hr => hok r (List.mem_cons_of_mem q hr)
    simp [checkPartitions, hS, hSok, ih']

/-- C2: evaluation short-circuits on the first failing partition. For a
topic sequence [A, B] where A's partitions split into a healthy prefix, a
first unhealthy partition p and a remainder, the run's query trace is
exactly the partition query for A followed by the replica queries for the
prefix and for p; the verdict is Unhealthy at (A, p); and (for B distinct
from A) no partition or replica query for B is ever issued — nor, by the
trace equality, any query for the partitions after p. -/
theorem short_circuit_first_failure (client : BrokerClient) (lvl : Int) (A B : String)
    (ps₁ : List Int) (p : Int) (ps₂ : List Int) (R : List Int)
    (hA : client.partitions A = Except.ok (ps₁ ++ p :: ps₂))
    (hok : ∀ q ∈ ps₁, ∃ S, client.replicas A q = Except.ok S ∧
      partitionUnhealthy lvl S = false)
    (hR : client.replicas A p = Except.ok R)
    (hbad : partitionUnhealthy lvl R = true) :
    (run client [A, B] lvl).queries =
      Query.partitionsQ A :: (ps₁.map (Query.replicasQ A) ++ [Query.replicasQ A p]) ∧
    runVerdict client [A, B] lvl = Verdict.unhealthy A p lvl R.length ∧
    (B ≠ A → Query.partitionsQ B ∉ (run client [A, B] lvl).queries ∧
      ∀ q : Int, Query.replicasQ B q ∉ (run client [A, B] lvl).queries) := by
  have hcp := checkPartitions_stops_at_first_bad client lvl A ps₁ p ps₂ R hok hR hbad
  have hres : resolveTopics client [A, B] = ([], Except.ok [A, B]) := rfl
  have hct : checkTopics client lvl [A, B] =
      (Query.partitionsQ A :: (ps₁.map (Query.replicasQ A) ++ [Query.replicasQ A p]),
        some (FatalEvent.unhealthy A p lvl R.length)) := by
    simp [checkTopics, hA, hcp]
  have hre : runEvent client [A, B] lvl =
      some (FatalEvent.unhealthy A p lvl R.length) := by
    simp [runEvent, hres, hct]
  have hrq : runQueries client [A, B] lvl =
      Query.partitionsQ A :: (ps₁.map (Query.replicasQ A) ++ [Query.replicasQ A p]) := by
    simp [runQueries, hres, hct]
  have hq : (run client [A, B] lvl).queries =
      Query.partitionsQ A :: (ps₁.map (Query.replicasQ A) ++ [Query.replicasQ A p]) := by
    simp [run, hre, hrq]
  refine ⟨hq, by simp [runVerdict, hre], ?_⟩
  intro hBA
  constructor
  · rw [hq]
    simp [hBA]
  · intro q
    rw [hq]
    simp [hBA, hBA.symm]

/-- Witness for C2 on the concrete short-circuit client: topic "a" has a
healthy partition 0 and an unhealthy partition 1; topic "b" is never
queried. -/
theorem short_circuit_first_failure_witness :
    (run clientShortCircuit ["a", "b"] 2).queries =
      Query.partitionsQ "a" ::
        (([0] : List Int).map (Query.replicasQ "a") ++ [Query.replicasQ "a" 1]) ∧
    runVerdict clientShortCircuit ["a", "b"] 2 =
      Verdict.unhealthy "a" 1 2 ([11] : List Int).length ∧
    ("b" ≠ "a" → Query.partitionsQ "b" ∉ (run clientShortCircuit ["a", "b"] 2).queries ∧
      ∀ q : Int, Query.replicasQ "b" q ∉ (run clientShortCircuit ["a", "b"] 2).queries) :=
  short_circuit_first_failure clientShortCircuit 2 "a" "b" [0] 1 [] [11] rfl
    (by
      intro q hq
      simp only [List.mem_singleton] at hq
      subst hq
      exact ⟨[11, 12], rfl, by decide⟩)
    rfl (by decide)

/-- The partition loop behaves identically under any two replication levels
for which the policy guard never fires. -/
theorem checkPartitions_nonpos_eq (client : BrokerClient) (lvl lvl2 : Int) (t : String)
    (h0 : ∀ S, partitionUnhealthy lvl S = false)
    (h0' : ∀ S, partitionUnhealthy lvl2 S = false) :
    ∀ ps, checkPartitions client lvl t ps = checkPartitions client lvl2 t ps := by
  intro ps
  induction ps with
  | nil => rfl
  | cons q qs ih =>
    cases hq : client.replicas t q with
    | error e => simp [checkPartitions, hq]
    | ok S => simp [checkPartitions, hq, h0, h0', ih]

/-- The topic loop behaves identically under any two replication levels for
which the policy guard never fires. -/
theorem checkTopics_nonpos_eq (client : BrokerClient) (lvl lvl2 : Int)
    (h0 : ∀ S, partitionUnhealthy lvl S = false)
    (h0' : ∀ S, partitionUnhealthy lvl2 S = false) :
    ∀ ts, checkTopics client lvl ts = checkTopics client lvl2 ts := by
  intro ts
  induction ts with
  | nil => rfl
  | cons t rest ih =>
    cases ht : client.partitions t with
    | error e => simp [checkTopics, ht]
    | ok parts =>
      simp [checkTopics, ht, checkPartitions_nonpos_eq client lvl lvl2 t h0 h0' parts, ih]

/-- C10: for every replicaLevel ≤ 0 — negative values are not rejected by
the integer flag — the guard of src/main.go:94 is false, so the whole run
behaves identically to replicaLevel 0 (existence check only) and can never
end with an Unhealthy verdict. -/
theorem nonpositive_level_like_zero (client : BrokerClient) (l : List String)
    (lvl : Int) (hlvl : lvl ≤ 0) :
    run client l lvl = run client l 0 ∧
    (∀ t p e a, runVerdict client l lvl ≠ Verdict.unhealthy t p e a) := by
  have h0 := partitionUnhealthy_nonpos lvl hlvl
  have h0' := partitionUnhealthy_nonpos 0 le_rfl
  have hct := checkTopics_nonpos_eq client lvl 0 h0 h0'
  have hre : runEvent client l lvl = runEvent client l 0 := by
    unfold runEvent
    cases hres : resolveTopics client l with
    | mk qs r =>
      cases r with
      | error ev => rfl
      | ok ts => simp [hct ts]
  have hrq : runQueries client l lvl = runQueries client l 0 := by
    unfold runQueries
    cases hres : resolveTopics client l with
    | mk qs r =>
      cases r with
      | error ev => rfl
      | ok ts => simp [hct ts]
  have hrun : run client l lvl = run client l 0 := by
    unfold run
    rw [hre, hrq]
  have hnu : ∀ ev, runEvent client l lvl = some ev → isUnhealthyEvent ev = false := by
    intro ev h
    unfold runEvent at h
    cases hres : resolveTopics client l with
    | mk qs r =>
      rw [hres] at h
      cases r with
      | error ev2 =>
        simp at h
        obtain ⟨e2, he2⟩ :=
          resolveTopics_error_topicsErr client l ev2 (by rw [hres])
        rw [← h, he2]
        rfl
      | ok ts => exact checkTopics_no_unhealthy client lvl h0 ts ev h
  refine ⟨hrun, ?_⟩
  intro t p e a hv
  unfold runVerdict at hv
  cases hre2 : runEvent client l lvl with
  | none => rw [hre2] at hv; exact absurd hv (by simp)
  | some ev =>
    rw [hre2] at hv
    have hfalse := hnu ev hre2
    cases ev with
    | unhealthy t' p' e' a' => simp [isUnhealthyEvent] at hfalse
    | topicsErr c => exact absurd hv (by simp)
    | partitionsErr t' c => exact absurd hv (by simp)
    | replicasErr t' p' c => exact absurd hv (by simp)

/-- Witness for C10 at replicaLevel -1 on a five-replica partition. -/
theorem nonpositive_level_like_zero_witness :
    run clientFiveReplicas ["a"] (-1) = run clientFiveReplicas ["a"] 0 ∧
    (∀ t p e a, runVerdict clientFiveReplicas ["a"] (-1) ≠ Verdict.unhealthy t p e a) :=
  nonpositive_level_like_zero clientFiveReplicas ["a"] (-1) (by decide)

/-- C5 counterexample: the terminal log line of an Unhealthy run does not
describe the expected or actual replica counts. Two runs with different
expected counts (3 vs 5) and different actual counts (2 vs 1) produce
identical observable results — the same log line, so the line cannot
describe either count. -/
theorem unhealthy_report_lacks_counts :
    runVerdict clientTwoReplicas ["a"] 3 = Verdict.unhealthy "a" 0 3 2 ∧
    runVerdict clientOneReplica ["a"] 5 = Verdict.unhealthy "a" 0 5 1 ∧
    run clientTwoReplicas ["a"] 3 = run clientOneReplica ["a"] 5 := by
  decide

/-- C5 amended: for every Unhealthy verdict the terminal log line carries
the failing topic and the failing partition — as the structured fields of
src/main.go:95-97 and again in the `Fatalf` message of src/main.go:98 — but
the expected and actual replica counts are not part of the line. -/
theorem unhealthy_report_topic_partition (client : BrokerClient) (l : List String)
    (lvl : Int) (t : String) (p : Int) (e : Int) (a : Nat)
    (h : runVerdict client l lvl = Verdict.unhealthy t p e a) :
    (run client l lvl).emitted =
      some ⟨[("topic", t), ("partition", toString p)],
        "topics " ++ t ++ ":" ++ toString p ++ " is not fully replicated"⟩ ∧
    ("topic", t) ∈ (reportOf (FatalEvent.unhealthy t p e a)).fields ∧
    ("partition", toString p) ∈ (reportOf (FatalEvent.unhealthy t p e a)).fields := by
  have hev : runEvent client l lvl = some (FatalEvent.unhealthy t p e a) := by
    unfold runVerdict at h
    cases hre : runEvent client l lvl with
    | none => rw [hre] at h; exact absurd h (by simp)
    | some ev =>
      rw [hre] at h
      cases ev with
      | unhealthy t' p' e' a' =>
        simp only [Verdict.unhealthy.injEq] at h
        obtain ⟨h1, h2, h3, h4⟩ := h
        rw [h1, h2, h3, h4]
      | topicsErr c => exact absurd h (by simp)
      | partitionsErr t' c => exact absurd h (by simp)
      | replicasErr t' p' c => exact absurd h (by simp)
  exact ⟨by simp [run, hev, reportOf], by simp [reportOf], by simp [reportOf]⟩

/-- Witness for the amended C5 on a concrete under-replicated run. -/
theorem unhealthy_report_topic_partition_witness :
    (run clientOneReplica ["a"] 2).emitted =
      some ⟨[("topic", "a"), ("partition", toString (0 : Int))],
        "topics " ++ "a" ++ ":" ++ toString (0 : Int) ++ " is not fully replicated"⟩ ∧
    ("topic", "a") ∈ (reportOf (FatalEvent.unhealthy "a" 0 2 1)).fields ∧
    ("partition", toString (0 : Int)) ∈
      (reportOf (FatalEvent.unhealthy "a" 0 2 1)).fields :=
  unhealthy_report_topic_partition clientOneReplica ["a"] 2 "a" 0 2 1 (by decide)

/-- C6: a failed replica query stops evaluation at once and the terminal
log line is tagged with the topic and the partition, but the underlying
metadata error is dropped: the log call of src/main.go:85-88 does not
include the `err` value that is in scope (unlike the partition-query
handler of src/main.go:76-79), and its message is the copy-pasted
"Error listing partitions". Two runs whose replica queries fail with
different causes are observationally identical. -/
theorem replica_error_cause_dropped :
    runEvent clientBoom ["t"] 2 = some (FatalEvent.replicasErr "t" 0 "boom") ∧
    runEvent clientBang ["t"] 2 = some (FatalEvent.replicasErr "t" 0 "bang") ∧
    run clientBoom ["t"] 2 = run clientBang ["t"] 2 ∧
    (run clientBoom ["t"] 2).emitted =
      some ⟨[("topic", "t"), ("partition", "0")], "Error listing partitions"⟩ := by
  refine ⟨rfl, rfl, by decide, rfl⟩

/-- C8 counterexample: on a run ending with an Unhealthy verdict the
deferred `client.Close()` of src/main.go:53 never runs, because
`log.Fatalf` terminates the process through `os.Exit(1)`, which skips
deferred calls; only a Healthy run closes the connection (once). -/
theorem close_skipped_on_unhealthy :
    runVerdict clientOneReplica ["a"] 2 = Verdict.unhealthy "a" 0 2 1 ∧
    (run clientOneReplica ["a"] 2).closeCount = 0 ∧
    (run clientTwoReplicas ["a"] 2).closeCount = 1 := by
  decide

/-- C8 amended: once the broker connection is established, the deferred
close runs exactly once on runs whose verdict is Healthy (main returns
normally); on runs ending Unhealthy or in a metadata error the process
terminates through `log.Fatal*`/`os.Exit`, which skips the deferred call,
so the program closes the connection zero times. -/
theorem close_once_iff_healthy (client : BrokerClient) (l : List String) (lvl : Int) :
    ((run client l lvl).closeCount = 1 ↔ runVerdict client l lvl = Verdict.healthy) ∧
    ((run client l lvl).closeCount = 0 ↔ runVerdict client l lvl ≠ Verdict.healthy) := by
  unfold run runVerdict
  cases runEvent client l lvl with
  | none => simp
  | some ev => cases ev <;> simp

/-- Witness for the amended C8 on a healthy and an unhealthy concrete run. -/
theorem close_once_iff_healthy_witness :
    (((run clientTwoReplicas ["a"] 2).closeCount = 1 ↔
      runVerdict clientTwoReplicas ["a"] 2 = Verdict.healthy) ∧
     ((run clientTwoReplicas ["a"] 2).closeCount = 0 ↔
      runVerdict clientTwoReplicas ["a"] 2 ≠ Verdict.healthy)) ∧
    (((run clientOneReplica ["a"] 2).closeCount = 1 ↔
      runVerdict clientOneReplica ["a"] 2 = Verdict.healthy) ∧
     ((run clientOneReplica ["a"] 2).closeCount = 0 ↔
      runVerdict clientOneReplica ["a"] 2 ≠ Verdict.healthy)) :=
  ⟨close_once_iff_healthy clientTwoReplicas ["a"] 2,
    close_once_iff_healthy clientOneReplica ["a"] 2⟩

/-- C9 counterexample: the default of `-logLevel` is not the string "warn"
— `logrus.WarnLevel.String()` renders as "warning", as the repository
README's recorded usage output shows — and the accepted level names are not
limited to fatal, error, warn, info, debug: "panic" parses too. -/
theorem loglevel_default_not_warn :
    defaultLogLevel ≠ "warn" ∧ (parseLevel "panic").isSome = true := by
  decide

/-- C9 amended: the default value of `-logLevel` is the string "warning";
the five documented names fatal, error, warn, info, debug are all accepted,
but so are panic and warning, and an unrecognized value is not rejected —
src/main.go:26-29 falls back to the warn level. -/
theorem loglevel_default_and_levels :
    defaultLogLevel = "warning" ∧
    parseLevel "fatal" = some Level.FatalLevel ∧
    parseLevel "error" = some Level.ErrorLevel ∧
    parseLevel "warn" = some Level.WarnLevel ∧
    parseLevel "info" = some Level.InfoLevel ∧
    parseLevel "debug" = some Level.DebugLevel ∧
    parseLevel "panic" = some Level.PanicLevel ∧
    parseLevel "warning" = some Level.WarnLevel ∧
    effectiveLogLevel "bogus" = Level.WarnLevel := by
  decide

end KafkaHealth
